import Mathlib

/-!
# tcp_client: a shallow embedding of `src/tcp_client.c` and `src/main.c`

Conventions of the embedding.

* A C `char` is a Lean `Char` with the same numeric value.  A C string (an
  element of `argv`, `optarg`, a string literal) is the list of its bytes
  before the terminating NUL (`CString`).  A `char` array (`request`, `buf`)
  is the list of all its bytes, NUL bytes included (`Buffer`).
* `int` values are `Int`; the conversions the code performs on values that
  may leave the `int` range are written out (`toInt32`).
* The system calls (`getaddrinfo`, `socket`, `connect`, `send`, `recv`,
  `close`) are results supplied by the environment (`Sys`); every call made is
  recorded in a list of `Call`s.
* `tcp_client.h` is not among the sources: the four macros it defines are the
  fields of `Header`.
* `log.h` is not among the sources either: the `log_*` calls write to the
  diagnostic stream only and are left out, as is `print_help_menu`, which
  writes to `stderr`.
* The library functions the code calls (`strcmp`, `isdigit`, `atoi`, `strlen`,
  `sprintf`, `printf`, `getopt_long`) are modelled as the GNU C library on an
  LP64 platform defines them.
* Undefined behaviour: when `sprintf` writes past the end of `request` nothing
  is known of the rest of the run, and the result of the function is `none`.
  When `printf` reads past the end of `buf` the bytes it writes are not
  determined by the inputs of the model, and the text written is `none`.
-/

namespace TcpClient

/-! ## C strings and buffers -/

/-- Bytes of a C string, terminating NUL excluded. -/
abbrev CString := List Char

/-- Bytes of a `char` array, every cell included. -/
abbrev Buffer := List Char

/-- The terminating byte of C strings. -/
def NUL : Char := Char.ofNat 0

/-- The line feed that ends the `printf` format of `main`. -/
def LF : Char := Char.ofNat 10

/-- A string literal of the source as a C string. -/
def lit (s : String) : CString := s.toList

/-- Function `strcmp` on C strings: zero exactly for equal strings, otherwise the sign
of the first differing byte (a shorter string compares as smaller). -/
def strcmp : CString → CString → Int
  | [], [] => 0
  | [], _ :: _ => -1
  | _ :: _, [] => 1
  | a :: as, b :: bs => if a = b then strcmp as bs else if a < b then -1 else 1

/-- Function `isdigit` in the "C" locale. -/
def isdigit (c : Char) : Bool := decide (48 ≤ c.toNat) && decide (c.toNat ≤ 57)

/-- Function `isspace` in the "C" locale: space, and the controls `\t \n \v \f \r`. -/
def isspace (c : Char) : Bool :=
  decide (c.toNat = 32) || (decide (9 ≤ c.toNat) && decide (c.toNat ≤ 13))

/-- Conversion of an integer to a 32-bit `int` (two's complement wrap). -/
def toInt32 (z : Int) : Int := (z + 2 ^ 31) % 2 ^ 32 - 2 ^ 31

/-- Largest `long` of an LP64 platform. -/
def LONG_MAX : Int := 2 ^ 63 - 1

/-- Smallest `long` of an LP64 platform. -/
def LONG_MIN : Int := -(2 ^ 63)

/-- Value of the leading decimal digits of a string, `acc` being the value
read so far. -/
def digitsValue : Nat → CString → Nat
  | acc, [] => acc
  | acc, c :: cs => if isdigit c then digitsValue (acc * 10 + (c.toNat - 48)) cs else acc

/-- Function `strtol(nptr, NULL, 10)` with a 64-bit `long`: leading white space, an
optional sign, the decimal digits; a value out of range is clamped to
`LONG_MAX` or `LONG_MIN`. -/
def strtol (nptr : CString) : Int :=
  match nptr.dropWhile isspace with
  | '-' :: r => max (-(digitsValue 0 r : Int)) LONG_MIN
  | '+' :: r => min (digitsValue 0 r : Int) LONG_MAX
  | r => min (digitsValue 0 r : Int) LONG_MAX

/-- Function `atoi` as the C libraries of LP64 platforms define it:
`(int) strtol(nptr, NULL, 10)`.  The C standard leaves the result undefined
when the value does not fit an `int`; this is what the library then returns. -/
def atoi (nptr : CString) : Int := toInt32 (strtol nptr)

/-- Function `strlen` on a `char` array: the number of bytes before the first NUL. -/
def strlen (b : Buffer) : Nat := (b.takeWhile (fun c => c != NUL)).length

/-- The `%d` conversion of `printf` for an `int`. -/
def fmt_d (v : Int) : List Char :=
  if v < 0 then '-' :: Nat.toDigits 10 v.natAbs else Nat.toDigits 10 v.natAbs

/-- Function `sprintf(dst, ...)` where the formatted text is `out`: writes `out` and a
terminating NUL at the start of `dst`.  When they do not fit the array the
write runs past its end and the behaviour is undefined (`none`). -/
def sprintf (dst : Buffer) (out : List Char) : Option Buffer :=
  if out.length < dst.length then some (out ++ NUL :: dst.drop (out.length + 1)) else none

/-- What `printf("%s\n", buf)` writes for a `char` array `buf`: the bytes
before the first NUL, then a line feed.  Without a NUL in the array the read
continues into the memory behind it and the bytes written are not determined
(`none`). -/
def printf_s_nl (buf : Buffer) : Option (List Char) :=
  if buf.contains NUL then some (buf.takeWhile (fun c => c != NUL) ++ [LF]) else none

/-- A local `char` array of `n` cells whose indeterminate initial contents
are given by `garbage`. -/
def stackArray (n : Nat) (garbage : Nat → Char) : Buffer := (List.range n).map garbage

/-! ## `tcp_client.h` -/

/-- The macros of `tcp_client.h`, which is not among the sources. -/
structure Header where
  /-- Macro `TCP_CLIENT_DEFAULT_PORT` -/
  TCP_CLIENT_DEFAULT_PORT : CString
  /-- Macro `TCP_CLIENT_DEFAULT_HOST` -/
  TCP_CLIENT_DEFAULT_HOST : CString
  /-- Macro `TCP_CLIENT_MAX_RECEIVE_SIZE` -/
  TCP_CLIENT_MAX_RECEIVE_SIZE : Nat
  /-- Macro `TCP_CLIENT_BAD_SOCKET` -/
  TCP_CLIENT_BAD_SOCKET : Int

/-- The `Config` struct, in the order of the initialiser in `main`. -/
structure Config where
  /-- Field `char *port` -/
  port : CString
  /-- Field `char *host` -/
  host : CString
  /-- Field `char *action` -/
  action : CString
  /-- Field `char *message` -/
  message : CString
deriving DecidableEq, Repr

/-- Macro `ARG_ERROR`, defined as 1. -/
def ARG_ERROR : Int := 1

/-- Macro `MAX_PORT_NUMBER`, defined as 65535. -/
def MAX_PORT_NUMBER : Int := 65535

/-- Macro `EXIT_FAILURE` of `stdlib.h`. -/
def EXIT_FAILURE : Int := 1

/-- Macro `EXIT_SUCCESS` of `stdlib.h`. -/
def EXIT_SUCCESS : Int := 0

/-! ## `getopt_long` -/

/-- The `has_arg` field of `struct option`. -/
inductive HasArg where
  | no_argument
  | required_argument
deriving DecidableEq, Repr

/-- One entry of `long_options` (the `flag` field is `NULL` in every entry). -/
structure LongOption where
  /-- Field `name` -/
  name : CString
  /-- Field `has_arg` -/
  has_arg : HasArg
  /-- Field `val` -/
  val : Char
deriving DecidableEq, Repr

/-- The table `long_options` of `tcp_client_parse_arguments`. -/
def long_options : List LongOption :=
  [⟨lit "verbose", HasArg.no_argument, 'v'⟩,
   ⟨lit "host", HasArg.required_argument, 'h'⟩,
   ⟨lit "port", HasArg.required_argument, 'p'⟩]

/-- The short option string passed to `getopt_long`. -/
def optstring : List Char := lit "vh:p:"

/-- One return of `getopt_long`: the value returned (`opt`) and `optarg`
(empty when the option takes no argument, where the caller does not read
it). -/
structure GetoptEvent where
  /-- the returned character -/
  opt : Char
  /-- Field `optarg` -/
  optarg : CString
deriving DecidableEq, Repr

/-- The return `'?'` of `getopt_long` for an unknown option, a missing
argument or an argument given to an option that takes none. -/
def optError : GetoptEvent := ⟨'?', []⟩

/-- How `optstring` declares a short option character. -/
inductive ShortKind where
  | invalid
  | flag
  | required
deriving DecidableEq, Repr

/-- Look-up of a short option character in an option string: the character
must occur in it and be neither `:` nor `;`; a following `:` makes its
argument required. -/
def shortKind (opts : List Char) (c : Char) : ShortKind :=
  if c = ':' ∨ c = ';' then ShortKind.invalid
  else
    match opts.dropWhile (fun d => d != c) with
    | [] => ShortKind.invalid
    | _ :: ':' :: _ => ShortKind.required
    | _ => ShortKind.flag

/-- The characters of one `-abc` word after the dash.  `next` is the element
of `argv` that follows the word, if any.  Returns the events and whether
`next` was taken as an option argument. -/
def scanShort (next : Option CString) : List Char → List GetoptEvent × Bool
  | [] => ([], false)
  | c :: rest =>
    match shortKind optstring c with
    | ShortKind.invalid => (optError :: (scanShort next rest).1, (scanShort next rest).2)
    | ShortKind.flag => (⟨c, []⟩ :: (scanShort next rest).1, (scanShort next rest).2)
    | ShortKind.required =>
      match rest with
      | _ :: _ => ([⟨c, rest⟩], false)
      | [] =>
        match next with
        | some a => ([⟨c, a⟩], true)
        | none => ([optError], false)

/-- Look-up of a long option name: an exact match wins; otherwise the name
must be a prefix of the names of entries that all agree in `has_arg` and
`val`. -/
def findLong (name : List Char) : Option LongOption :=
  match long_options.find? (fun o => o.name = name) with
  | some o => some o
  | none =>
    match long_options.filter (fun o => name.isPrefixOf o.name) with
    | [] => none
    | o :: more =>
      if more.all (fun q => q.has_arg = o.has_arg ∧ q.val = o.val) then some o else none

/-- The text of one `--name` or `--name=value` word after the two dashes.
Returns the event and whether `next` was taken as the option argument. -/
def scanLong (next : Option CString) (body : List Char) : GetoptEvent × Bool :=
  let name := body.takeWhile (fun c => c != '=')
  let hasValue := body.contains '='
  let value := (body.dropWhile (fun c => c != '=')).drop 1
  match findLong name with
  | none => (optError, false)
  | some o =>
    match o.has_arg with
    | HasArg.no_argument => if hasValue then (optError, false) else (⟨o.val, []⟩, false)
    | HasArg.required_argument =>
      if hasValue then (⟨o.val, value⟩, false)
      else
        match next with
        | some a => (⟨o.val, a⟩, true)
        | none => (optError, false)

/-- The result of calling `getopt_long` until it returns `-1`. -/
structure GetoptScan where
  /-- the successive returns, in order -/
  events : List GetoptEvent
  /-- the words of `argv` taken as options or option arguments, in order -/
  options : List CString
  /-- the words left over: the non-options, in order, and all that follows `--` -/
  operands : List CString
deriving DecidableEq, Repr

/-- What `getopt_long` makes of one word of `argv`. -/
inductive WordKind where
  /-- the word `--`, which ends the options -/
  | terminator
  /-- a non-option: a word that does not start with `-`, or `-` alone -/
  | operand
  /-- an option word: the events it yields and whether the following word is
  its argument -/
  | option (events : List GetoptEvent) (usedNext : Bool)
deriving DecidableEq, Repr

/-- Classification of the word `w`, `next` being the word that follows. -/
def scanWord (next : Option CString) (w : CString) : WordKind :=
  match w with
  | ['-', '-'] => WordKind.terminator
  | '-' :: '-' :: body => WordKind.option [(scanLong next body).1] (scanLong next body).2
  | '-' :: c :: cs => WordKind.option (scanShort next (c :: cs)).1 (scanShort next (c :: cs)).2
  | _ => WordKind.operand

/-- All calls of `getopt_long` over the words after `argv[0]`, in the default
(permuting) mode of GNU `getopt_long`: the option string starts with neither
`+` nor `-`, and `POSIXLY_CORRECT` is not set in the environment.  The flag
tells that the first word has been taken as the argument of the option before
it. -/
def scanFrom : Bool → List CString → GetoptScan
  | _, [] => ⟨[], [], []⟩
  | true, a :: rest =>
    ⟨(scanFrom false rest).events, a :: (scanFrom false rest).options,
     (scanFrom false rest).operands⟩
  | false, w :: rest =>
    match scanWord rest.head? w with
    | WordKind.terminator => ⟨[], [w], rest⟩
    | WordKind.operand =>
      ⟨(scanFrom false rest).events, (scanFrom false rest).options,
       w :: (scanFrom false rest).operands⟩
    | WordKind.option es used =>
      ⟨es ++ (scanFrom used rest).events, w :: (scanFrom used rest).options,
       (scanFrom used rest).operands⟩

/-- The scan of the words after `argv[0]`. -/
def scanArgs (words : List CString) : GetoptScan := scanFrom false words

/-- State in which the loop over `getopt_long` leaves its caller: the
returns, the permuted `argv` (options first, operands last) and `optind`, the
index of the first operand. -/
structure GetoptRun where
  /-- the successive returns of `getopt_long` -/
  events : List GetoptEvent
  /-- Variable `argv` after the permutation -/
  argv : List CString
  /-- Variable `optind` after the last call -/
  optind : Nat
deriving DecidableEq, Repr

/-- The loop over `getopt_long(argc, argv, "vh:p:", long_options, ...)`.
With `argc < 1` the first call returns `-1` and leaves `optind` at `1`. -/
def getopt_long_run : List CString → GetoptRun
  | [] => ⟨[], [], 1⟩
  | prog :: rest =>
    ⟨(scanArgs rest).events, prog :: ((scanArgs rest).options ++ (scanArgs rest).operands),
     1 + (scanArgs rest).options.length⟩

/-! ## `tcp_client_parse_arguments` -/

/-- The five action keywords, in the order of the comparison in the source. -/
def ACTIONS : List CString :=
  [lit "uppercase", lit "lowercase", lit "reverse", lit "title-case", lit "shuffle"]

/-- The loop `for (i = 0; i < argc; i++) if (!strcmp(argv[i], "--help")) ...`:
whether some argument is `--help`. -/
def helpRequested (argv : List CString) : Bool :=
  argv.any (fun a => decide (strcmp a (lit "--help") = 0))

/-- The loop `for (i = 0; optarg[i] != 0; i++) if (!isdigit(optarg[i])) ...`:
whether every byte of the port argument is a digit. -/
def portAllDigits (optarg : CString) : Bool := optarg.all isdigit

/-- The `while ((opt = getopt_long(...)) != -1) switch (opt)` loop over the
returns of `getopt_long`.  Returns `ARG_ERROR` at the first return the switch
rejects, `0` when the loop ends, and the configuration as written so far. -/
def parseOptions : List GetoptEvent → Config → Int × Config
  | [], config => (0, config)
  | e :: es, config =>
    if e.opt = 'v' then parseOptions es config
    else if e.opt = 'h' then parseOptions es { config with host := e.optarg }
    else if e.opt = 'p' then
      if !portAllDigits e.optarg then (ARG_ERROR, config)
      else if atoi e.optarg > MAX_PORT_NUMBER then (ARG_ERROR, config)
      else parseOptions es { config with port := e.optarg }
    else if e.opt = '?' then (ARG_ERROR, config)
    else (ARG_ERROR, config)

/-- The test on the action: every `strcmp` against a keyword is non-zero. -/
def unrecognizedAction (a : CString) : Bool :=
  decide (strcmp a (lit "uppercase") ≠ 0) && decide (strcmp a (lit "lowercase") ≠ 0) &&
  decide (strcmp a (lit "reverse") ≠ 0) && decide (strcmp a (lit "title-case") ≠ 0) &&
  decide (strcmp a (lit "shuffle") ≠ 0)

/-- Function `tcp_client_parse_arguments(argc, argv, config)` with `argc = argv.length`:
the value returned and `*config` on return. -/
def tcp_client_parse_arguments (argv : List CString) (config : Config) : Int × Config :=
  if helpRequested argv then (ARG_ERROR, config)
  else
    let run := getopt_long_run argv
    let r := parseOptions run.events config
    if r.1 ≠ 0 then r
    else if (argv.length : Int) - (run.optind : Int) ≠ 2 then (ARG_ERROR, r.2)
    else if unrecognizedAction (run.argv.getD run.optind []) then (ARG_ERROR, r.2)
    else
      (0, { r.2 with action := run.argv.getD run.optind [],
                     message := run.argv.getD (run.optind + 1) [] })

/-- The arguments that remain once the options are consumed: `argv[optind]`
up to `argv[argc - 1]` after the last call of `getopt_long`. -/
def remainingArgs (argv : List CString) : List CString :=
  (getopt_long_run argv).argv.drop (getopt_long_run argv).optind

/-! ## System calls -/

/-- One system call with the arguments that matter here. -/
inductive Call where
  /-- Call `getaddrinfo(host, port, &hints, &res)` -/
  | getaddrinfo (host port : CString)
  /-- Call `socket(res->ai_family, res->ai_socktype, res->ai_protocol)` -/
  | socket
  /-- Call `connect(sockfd, res->ai_addr, res->ai_addrlen)` -/
  | connect (sockfd : Int)
  /-- Call `send(sockfd, request, send_len, 0)`: `data` holds the first `len` bytes of `request` -/
  | send (sockfd : Int) (data : List Char) (len : Int)
  /-- Call `recv(sockfd, buf, buf_size, 0)` -/
  | recv (sockfd : Int) (len : Int)
  /-- Call `close(sockfd)` -/
  | close (sockfd : Int)
deriving DecidableEq, Repr

/-- The environment of one run: what each system call returns, and the
indeterminate initial contents of the two local arrays. -/
structure Sys where
  /-- return value of `getaddrinfo` for a host and a port -/
  getaddrinfo : CString → CString → Int
  /-- return value of `socket` -/
  socket : Int
  /-- return value of `connect` on a descriptor -/
  connect : Int → Int
  /-- return value of `send` for a descriptor, the bytes and their number, as
  the `int` that the caller stores in `bytes_sent` -/
  send : Int → List Char → Int → Int
  /-- return value of `recv` for a descriptor and a limit, as the `int` that
  the caller stores in `return_value`, and the bytes it stores at the start of
  the buffer when that value is positive -/
  recv : Int → Int → Int × List Char
  /-- return value of `close` on a descriptor -/
  close : Int → Int
  /-- initial contents of `request` in `tcp_client_send_request` -/
  request0 : Nat → Char
  /-- initial contents of `buf` in `main` -/
  buf0 : Nat → Char

/-! ## Socket functions -/

/-- Function `tcp_client_connect(config)`: the value returned and the calls made.
After a successful `getaddrinfo` the list `res` is not empty, so the test
`res == NULL` that follows `connect` is false. -/
def tcp_client_connect (hdr : Header) (sys : Sys) (config : Config) : Int × List Call :=
  let return_value := sys.getaddrinfo config.host config.port
  if return_value ≠ 0 then (-1, [Call.getaddrinfo config.host config.port])
  else
    let sockfd := sys.socket
    if sockfd = -1 then
      (hdr.TCP_CLIENT_BAD_SOCKET, [Call.getaddrinfo config.host config.port, Call.socket])
    else if sys.connect sockfd = -1 then
      (hdr.TCP_CLIENT_BAD_SOCKET,
       [Call.getaddrinfo config.host config.port, Call.socket, Call.connect sockfd,
        Call.close sockfd])
    else
      (sockfd, [Call.getaddrinfo config.host config.port, Call.socket, Call.connect sockfd])

/-- The text that `sprintf(request, "%s %d %s", action, message_len, message)`
formats, with `message_len = strlen(config.message)` converted to `int`. -/
def requestText (config : Config) : List Char :=
  config.action ++ ' ' :: (fmt_d (toInt32 (config.message.length : Int)) ++ ' ' :: config.message)

/-- What `tcp_client_send_request` returns and what it passed to `send`. -/
structure SendResult where
  /-- the value returned -/
  ret : Int
  /-- the bytes of `request` handed to `send` -/
  data : List Char
  /-- the length handed to `send` -/
  len : Int
deriving DecidableEq, Repr

/-- Function `tcp_client_send_request(sockfd, config)`.  `none` when `sprintf` writes
past the end of `request`, which has `TCP_CLIENT_MAX_RECEIVE_SIZE` cells. -/
def tcp_client_send_request (hdr : Header) (sys : Sys) (sockfd : Int) (config : Config) :
    Option SendResult :=
  match sprintf (stackArray hdr.TCP_CLIENT_MAX_RECEIVE_SIZE sys.request0) (requestText config) with
  | none => none
  | some request =>
    let send_len : Int := toInt32 (strlen request : Int)
    let data := request.take send_len.toNat
    let bytes_sent := sys.send sockfd data send_len
    if bytes_sent = -1 then some ⟨1, data, send_len⟩ else some ⟨0, data, send_len⟩

/-- What `tcp_client_receive_response` returns, the buffer on return and
the calls made. -/
structure RecvResult where
  /-- the value returned -/
  ret : Int
  /-- the caller's buffer on return -/
  buf : Buffer
  /-- the system calls made -/
  calls : List Call
deriving DecidableEq, Repr

/-- Function `tcp_client_receive_response(sockfd, buf, buf_size)`.  A positive return
`n` of `recv` stores `n` bytes at the start of `buf`. -/
def tcp_client_receive_response (sys : Sys) (sockfd : Int) (buf : Buffer) (buf_size : Int) :
    RecvResult :=
  let return_value := (sys.recv sockfd buf_size).1
  if return_value ≤ 0 then ⟨1, buf, [Call.recv sockfd buf_size]⟩
  else
    ⟨0, (sys.recv sockfd buf_size).2.take return_value.toNat ++ buf.drop return_value.toNat,
     [Call.recv sockfd buf_size]⟩

/-- Function `tcp_client_close(sockfd)`: the value returned and the call made. -/
def tcp_client_close (sys : Sys) (sockfd : Int) : Int × List Call :=
  if sys.close sockfd ≠ 0 then (1, [Call.close sockfd]) else (0, [Call.close sockfd])

/-! ## `main` -/

/-- How a run of `main` ends. -/
structure Outcome where
  /-- the exit status -/
  status : Int
  /-- what was written to standard output; `none` when `printf` read past
  the end of `buf` -/
  stdout : Option (List Char)
  /-- the system calls made, in order -/
  calls : List Call
deriving DecidableEq, Repr

/-- The initialiser `{TCP_CLIENT_DEFAULT_PORT, TCP_CLIENT_DEFAULT_HOST, "", ""}`. -/
def config_values (hdr : Header) : Config :=
  ⟨hdr.TCP_CLIENT_DEFAULT_PORT, hdr.TCP_CLIENT_DEFAULT_HOST, [], []⟩

/-- The configuration after `tcp_client_parse_arguments` in `main`. -/
def mainConfig (hdr : Header) (argv : List CString) : Config :=
  (tcp_client_parse_arguments argv (config_values hdr)).2

/-- The descriptor `main` gets from `tcp_client_connect`. -/
def mainSockfd (hdr : Header) (sys : Sys) (argv : List CString) : Int :=
  (tcp_client_connect hdr sys (mainConfig hdr argv)).1

/-- The call of `tcp_client_receive_response` in `main`. -/
def mainReceive (hdr : Header) (sys : Sys) (argv : List CString) : RecvResult :=
  tcp_client_receive_response sys (mainSockfd hdr sys argv)
    (stackArray hdr.TCP_CLIENT_MAX_RECEIVE_SIZE sys.buf0) hdr.TCP_CLIENT_MAX_RECEIVE_SIZE

/-- Function `main(argc, argv)`.  `none` when `tcp_client_send_request` has undefined
behaviour. -/
def main (hdr : Header) (sys : Sys) (argv : List CString) : Option Outcome :=
  if (tcp_client_parse_arguments argv (config_values hdr)).1 ≠ 0 then
    some ⟨EXIT_FAILURE, some [], []⟩
  else
    let config := mainConfig hdr argv
    let c1 := (tcp_client_connect hdr sys config).2
    let sockfd := mainSockfd hdr sys argv
    if sockfd = -1 then some ⟨EXIT_FAILURE, some [], c1⟩
    else
      match tcp_client_send_request hdr sys sockfd config with
      | none => none
      | some s =>
        let c2 := c1 ++ [Call.send sockfd s.data s.len]
        if s.ret ≠ 0 then some ⟨EXIT_FAILURE, some [], c2⟩
        else
          let r := mainReceive hdr sys argv
          if r.ret ≠ 0 then some ⟨EXIT_FAILURE, some [], c2 ++ r.calls⟩
          else
            let out := printf_s_nl r.buf
            let c := tcp_client_close sys sockfd
            if c.1 ≠ 0 then some ⟨EXIT_FAILURE, out, c2 ++ r.calls ++ c.2⟩
            else some ⟨EXIT_SUCCESS, out, c2 ++ r.calls ++ c.2⟩

/-! ## Definitions used by the statements -/

/-- The five stages of `main` all succeed: `tcp_client_parse_arguments`
returns 0, `tcp_client_connect` returns a descriptor other than -1, and
`tcp_client_send_request`, `tcp_client_receive_response` and
`tcp_client_close` return 0. -/
def stagesSucceed (hdr : Header) (sys : Sys) (argv : List CString) : Prop :=
  (tcp_client_parse_arguments argv (config_values hdr)).1 = 0 ∧
  mainSockfd hdr sys argv ≠ -1 ∧
  (tcp_client_send_request hdr sys (mainSockfd hdr sys argv) (mainConfig hdr argv)).map
      SendResult.ret = some 0 ∧
  (mainReceive hdr sys argv).ret = 0 ∧
  (tcp_client_close sys (mainSockfd hdr sys argv)).1 = 0

instance (hdr : Header) (sys : Sys) (argv : List CString) :
    Decidable (stagesSucceed hdr sys argv) := by
  unfold stagesSucceed; infer_instance

/-- The frame in the words of the specification: the action, one space, the
decimal digits of the byte count of the message, one space, the message. -/
def specFrame (action message : CString) : List Char :=
  action ++ ' ' :: (Nat.toDigits 10 message.length ++ ' ' :: message)

/-- A port argument that the checks of the `'p'` case are able to see as
wrong: a byte that is no digit, or digits whose value is above 65535 and fits
an `int`. -/
def BadPort (optarg : CString) : Prop :=
  optarg.all isdigit = false ∨
    (65535 < digitsValue 0 optarg ∧ digitsValue 0 optarg < 2 ^ 31)

instance (optarg : CString) : Decidable (BadPort optarg) := by
  unfold BadPort; infer_instance

/-- A return of `getopt_long` that the specification accepts: the verbosity
toggle, a host override, or a port override whose argument is all digits and
denotes a number of at most 65535. -/
def optionValid (e : GetoptEvent) : Prop :=
  e.opt = 'v' ∨ e.opt = 'h' ∨
    (e.opt = 'p' ∧ e.optarg.all isdigit = true ∧ digitsValue 0 e.optarg ≤ 65535)

instance (e : GetoptEvent) : Decidable (optionValid e) := by
  unfold optionValid; infer_instance

/-- The arguments are valid in the words of the specification: no `--help`,
every option accepted, exactly two arguments left after the options, the
first of them one of the five keywords. -/
def specArgsValid (argv : List CString) : Prop :=
  lit "--help" ∉ argv ∧
  (∀ e ∈ (getopt_long_run argv).events, optionValid e) ∧
  (remainingArgs argv).length = 2 ∧
  ∃ a ∈ ACTIONS, (remainingArgs argv).head? = some a

instance (argv : List CString) : Decidable (specArgsValid argv) := by
  unfold specArgsValid; infer_instance

/-- No port option carries digits that denote a number beyond the range of
`int`. -/
def portsFitInt (argv : List CString) : Prop :=
  ∀ e ∈ (getopt_long_run argv).events, e.opt = 'p' → digitsValue 0 e.optarg < 2 ^ 31

instance (argv : List CString) : Decidable (portsFitInt argv) := by
  unfold portsFitInt; infer_instance

/-- The three calls of `tcp_client_connect` succeed: `getaddrinfo` returns 0,
`socket` and `connect` do not return -1. -/
def connectSucceeds (sys : Sys) (config : Config) : Prop :=
  sys.getaddrinfo config.host config.port = 0 ∧ sys.socket ≠ -1 ∧ sys.connect sys.socket ≠ -1

instance (sys : Sys) (config : Config) : Decidable (connectSucceeds sys config) := by
  unfold connectSucceeds; infer_instance

/-- What `send` returns on the descriptor of `socket` for the request of
`config`; `none` when the frame does not fit `request`. -/
def sendReturn (hdr : Header) (sys : Sys) (config : Config) : Option Int :=
  (tcp_client_send_request hdr sys sys.socket config).map
    (fun s => sys.send sys.socket s.data s.len)

/-- Connect, send and receive succeed: the calls of `tcp_client_connect`
succeed, the frame fits `request` and `send` does not return -1, and `recv`
returns a positive count. -/
def exchangeSucceeds (hdr : Header) (sys : Sys) (config : Config) : Prop :=
  connectSucceeds sys config ∧
  sendReturn hdr sys config ≠ none ∧ sendReturn hdr sys config ≠ some (-1) ∧
  0 < (sys.recv sys.socket hdr.TCP_CLIENT_MAX_RECEIVE_SIZE).1

instance (hdr : Header) (sys : Sys) (config : Config) :
    Decidable (exchangeSucceeds hdr sys config) := by
  unfold exchangeSucceeds; infer_instance

/-- The array `buf` of `main` once `recv`, on the descriptor of `socket`, has
stored the bytes it returned a count for. -/
def bufAfterRecv (hdr : Header) (sys : Sys) : Buffer :=
  (sys.recv sys.socket hdr.TCP_CLIENT_MAX_RECEIVE_SIZE).2.take
      (sys.recv sys.socket hdr.TCP_CLIENT_MAX_RECEIVE_SIZE).1.toNat ++
    (stackArray hdr.TCP_CLIENT_MAX_RECEIVE_SIZE sys.buf0).drop
      (sys.recv sys.socket hdr.TCP_CLIENT_MAX_RECEIVE_SIZE).1.toNat

/-! ## Concrete runs -/

/-- Modelled from the spec: values for the four macros of `tcp_client.h`,
which is not among the sources, for the concrete runs below.  The spec asks
for a default port, a loopback default host and a fixed buffer capacity and
names none of the values; the comment of `tcp_client_connect` gives -1 for a
bad socket. -/
def exampleHeader : Header := ⟨lit "8080", lit "localhost", 1024, -1⟩

/-- An environment in which every call succeeds: the descriptor is 3, `send`
takes all the bytes, the peer answers `cba`, and both local arrays start out
filled with NUL. -/
def exampleSys : Sys :=
  { getaddrinfo := fun _ _ => 0, socket := 3, connect := fun _ => 0,
    send := fun _ _ len => len, recv := fun _ _ => (3, lit "cba"), close := fun _ => 0,
    request0 := fun _ => NUL, buf0 := fun _ => NUL }

/-- As `exampleSys`, with `send` returning 0. -/
def sendZeroSys : Sys := { exampleSys with send := fun _ _ _ => 0 }

/-- As `exampleSys`, with `recv` returning 0 (the peer closed at once). -/
def recvZeroSys : Sys := { exampleSys with recv := fun _ _ => (0, []) }

/-- As `exampleSys`, with `close` returning -1. -/
def closeFailSys : Sys := { exampleSys with close := fun _ => -1 }

/-- As `exampleSys`, with the first four cells of `buf` holding `?` before
the call of `recv`. -/
def garbageSys : Sys := { exampleSys with buf0 := fun i => if i < 4 then '?' else NUL }

/-- As `exampleSys`, with a response of three bytes whose second byte is NUL. -/
def nulResponseSys : Sys := { exampleSys with recv := fun _ _ => (3, ['c', NUL, 'a']) }

/-- The command line `tcp_client reverse abc`. -/
def reverseAbc : List CString := [lit "tcp_client", lit "reverse", lit "abc"]

/-- The command line `tcp_client -p 80 reverse abc`. -/
def reverseAbcPort80 : List CString :=
  [lit "tcp_client", lit "-p", lit "80", lit "reverse", lit "abc"]

/-- The system calls of a complete run of `tcp_client reverse abc` with the
host and port that `exampleHeader` gives as defaults. -/
def reverseAbcCalls : List Call :=
  [Call.getaddrinfo (lit "localhost") (lit "8080"), Call.socket, Call.connect 3,
   Call.send 3 (lit "reverse 3 abc") 13, Call.recv 3 1024, Call.close 3]

/-! ## Lemmas on strings and buffers -/

theorem strcmp_eq_zero_iff (a b : CString) : strcmp a b = 0 ↔ a = b := by
  induction a generalizing b with
  | nil => cases b <;> simp [strcmp]
  | cons x xs ih =>
    cases b with
    | nil => simp [strcmp]
    | cons y ys =>
      by_cases h : x = y
      · simp [strcmp, h, ih]
      · by_cases h2 : x < y <;> simp [strcmp, h, h2]

theorem stackArray_length (n : Nat) (g : Nat → Char) : (stackArray n g).length = n := by
  simp [stackArray]

theorem stackArray_drop (cap n : Nat) (g : Nat → Char) (h : n < cap) :
    (stackArray cap g).drop n = g n :: (stackArray cap g).drop (n + 1) := by
  have hl : n < (stackArray cap g).length := by rw [stackArray_length]; exact h
  rw [List.drop_eq_getElem_cons hl]
  congr 1
  simp [stackArray]

theorem toInt32_of_nonneg_lt (z : Int) (h0 : 0 ≤ z) (h1 : z < 2 ^ 31) : toInt32 z = z := by
  unfold toInt32
  have e31 : (2 : Int) ^ 31 = 2147483648 := by norm_num
  have e32 : (2 : Int) ^ 32 = 4294967296 := by norm_num
  rw [e31, e32] at *
  omega

theorem fmt_d_natCast (n : Nat) : fmt_d (n : Int) = Nat.toDigits 10 n := by
  unfold fmt_d
  rw [if_neg (by omega), Int.natAbs_ofNat]

theorem digitChar_ne_NUL (k : Nat) (hk : k < 10) : Nat.digitChar k ≠ NUL := by
  interval_cases k <;> decide

theorem toDigitsCore_ne_NUL (fuel n : Nat) (acc : List Char) (hacc : ∀ c ∈ acc, c ≠ NUL) :
    ∀ c ∈ Nat.toDigitsCore 10 fuel n acc, c ≠ NUL := by
  induction fuel generalizing n acc with
  | zero => simpa [Nat.toDigitsCore] using hacc
  | succ f ih =>
    unfold Nat.toDigitsCore
    have hcons : ∀ c ∈ Nat.digitChar (n % 10) :: acc, c ≠ NUL := by
      intro c hc
      rcases List.mem_cons.1 hc with rfl | hc
      · exact digitChar_ne_NUL _ (Nat.mod_lt _ (by decide))
      · exact hacc c hc
    show ∀ c ∈ (if n / 10 = 0 then Nat.digitChar (n % 10) :: acc
      else Nat.toDigitsCore 10 f (n / 10) (Nat.digitChar (n % 10) :: acc)), c ≠ NUL
    split_ifs
    · exact hcons
    · exact ih _ _ hcons

theorem toDigits_ne_NUL (n : Nat) : ∀ c ∈ Nat.toDigits 10 n, c ≠ NUL :=
  toDigitsCore_ne_NUL _ _ [] (by simp)

theorem takeWhile_append_NUL (l r : List Char) (h : ∀ c ∈ l, c ≠ NUL) :
    (l ++ NUL :: r).takeWhile (fun c => c != NUL) = l := by
  induction l with
  | nil => simp
  | cons x xs ih =>
    have hx : x ≠ NUL := h x (List.mem_cons_self _ _)
    have := ih (fun c hc => h c (List.mem_cons_of_mem _ hc))
    have hb : (x != NUL) = true := by simpa using hx
    rw [List.cons_append, List.takeWhile_cons, hb, if_pos rfl, this]

theorem strlen_append_NUL (l r : List Char) (h : ∀ c ∈ l, c ≠ NUL) :
    strlen (l ++ NUL :: r) = l.length := by
  unfold strlen
  rw [takeWhile_append_NUL l r h]

theorem printf_s_nl_append_NUL (l r : List Char) (h : ∀ c ∈ l, c ≠ NUL) :
    printf_s_nl (l ++ NUL :: r) = some (l ++ [LF]) := by
  unfold printf_s_nl
  rw [takeWhile_append_NUL l r h, if_pos]
  simp

theorem isdigit_not_isspace (c : Char) (h : isdigit c = true) : isspace c = false := by
  unfold isdigit at h
  unfold isspace
  simp only [Bool.and_eq_true, decide_eq_true_eq] at h
  simp only [Bool.or_eq_false_iff, Bool.and_eq_false_iff, decide_eq_false_iff_not]
  omega

theorem strtol_of_digits (s : CString) (h : s.all isdigit = true) :
    strtol s = min (digitsValue 0 s : Int) LONG_MAX := by
  cases s with
  | nil => rfl
  | cons c r =>
    have hc : isdigit c = true := by
      simp only [List.all_cons, Bool.and_eq_true] at h; exact h.1
    have hsp : isspace c = false := isdigit_not_isspace c hc
    have hm : c ≠ '-' := by rintro rfl; exact absurd hc (by decide)
    have hp : c ≠ '+' := by rintro rfl; exact absurd hc (by decide)
    unfold strtol
    rw [List.dropWhile_cons, hsp]
    simp only [Bool.false_eq_true, if_false]
    split
    · rename_i heq; exact absurd (List.cons.inj heq).1 hm
    · rename_i heq; exact absurd (List.cons.inj heq).1 hp
    · rfl

theorem atoi_of_digits (s : CString) (h : s.all isdigit = true) (hv : digitsValue 0 s < 2 ^ 31) :
    atoi s = (digitsValue 0 s : Int) := by
  unfold atoi
  rw [strtol_of_digits s h]
  have h2 : ((digitsValue 0 s : Nat) : Int) < 2 ^ 31 := by exact_mod_cast hv
  have h3 : min (digitsValue 0 s : Int) LONG_MAX = (digitsValue 0 s : Int) := by
    apply min_eq_left
    unfold LONG_MAX
    have e31 : (2 : Int) ^ 31 = 2147483648 := by norm_num
    have e63 : (2 : Int) ^ 63 = 9223372036854775808 := by norm_num
    rw [e31] at h2
    rw [e63]
    omega
  rw [h3]
  exact toInt32_of_nonneg_lt _ (by omega) h2

/-! ## Lemmas on `tcp_client_parse_arguments` -/

theorem helpRequested_iff (argv : List CString) :
    helpRequested argv = true ↔ lit "--help" ∈ argv := by
  simp only [helpRequested, List.any_eq_true, decide_eq_true_eq, strcmp_eq_zero_iff]
  constructor
  · rintro ⟨a, ha, rfl⟩; exact ha
  · intro h; exact ⟨_, h, rfl⟩

theorem unrecognizedAction_iff (a : CString) : unrecognizedAction a = true ↔ a ∉ ACTIONS := by
  simp only [unrecognizedAction, ACTIONS, Bool.and_eq_true, decide_eq_true_eq, ne_eq,
    strcmp_eq_zero_iff, List.mem_cons, List.mem_singleton, not_or, List.not_mem_nil, or_false]
  tauto

theorem parseOptions_ret (es : List GetoptEvent) (config : Config) :
    (parseOptions es config).1 = 0 ∨ (parseOptions es config).1 = ARG_ERROR := by
  induction es generalizing config with
  | nil => left; rfl
  | cons e es ih =>
    unfold parseOptions
    split_ifs <;> first | exact ih _ | (right; rfl)

theorem parseOptions_bad_port (es : List GetoptEvent) (config : Config) (e : GetoptEvent)
    (he : e ∈ es) (hp : e.opt = 'p') (hbad : BadPort e.optarg) :
    (parseOptions es config).1 = ARG_ERROR := by
  induction es generalizing config with
  | nil => exact absurd he (List.not_mem_nil _)
  | cons e2 es ih =>
    rcases List.mem_cons.1 he with rfl | hmem
    · unfold parseOptions
      rw [if_neg (by rw [hp]; decide), if_neg (by rw [hp]; decide), if_pos hp]
      by_cases hd : portAllDigits e.optarg = true
      · rcases hbad with h | ⟨h1, h2⟩
        · unfold portAllDigits at hd; rw [hd] at h; exact absurd h (by decide)
        · have hat := atoi_of_digits e.optarg hd h2
          have : atoi e.optarg > MAX_PORT_NUMBER := by
            rw [hat]; unfold MAX_PORT_NUMBER; exact_mod_cast h1
          simp [hd, this]
      · simp [hd]
    · unfold parseOptions
      split_ifs <;> first | rfl | exact ih _ hmem

theorem scanFrom_length (b : Bool) (l : List CString) :
    (scanFrom b l).options.length + (scanFrom b l).operands.length = l.length := by
  induction l generalizing b with
  | nil => cases b <;> rfl
  | cons w rest ih =>
    cases b with
    | true => simp only [scanFrom, List.length_cons]; have := ih false; omega
    | false =>
      simp only [scanFrom]
      split
      · simp only [List.length_cons, List.length_nil]; omega
      · simp only [List.length_cons]; have := ih false; omega
      · rename_i es used _; simp only [List.length_cons]; have := ih used; omega

/-- After the permutation the remaining arguments are the operands of the scan. -/
theorem remainingArgs_cons (prog : CString) (rest : List CString) :
    remainingArgs (prog :: rest) = (scanArgs rest).operands := by
  simp [remainingArgs, getopt_long_run, Nat.add_comm 1, List.drop_append]

/-- The test `(argc - optind) != 2` counts the remaining arguments. -/
theorem remainingArgs_length (argv : List CString) :
    (argv.length : Int) - ((getopt_long_run argv).optind : Int) ≠ 2 ↔
      (remainingArgs argv).length ≠ 2 := by
  cases argv with
  | nil => simp [remainingArgs, getopt_long_run]
  | cons prog rest =>
    rw [remainingArgs_cons]
    have := scanFrom_length false rest
    simp only [getopt_long_run, scanArgs, List.length_cons] at *
    omega

theorem getD_optind (prog : CString) (rest : List CString) (k : Nat) :
    (getopt_long_run (prog :: rest)).argv.getD ((getopt_long_run (prog :: rest)).optind + k) [] =
      (remainingArgs (prog :: rest)).getD k [] := by
  simp only [remainingArgs, List.getD_eq_getElem?_getD, List.getElem?_drop]

/-- The function `tcp_client_parse_arguments` in terms of the remaining
arguments. -/
theorem parse_eq (argv : List CString) (config : Config) :
    tcp_client_parse_arguments argv config =
      if helpRequested argv then (ARG_ERROR, config)
      else if (parseOptions (getopt_long_run argv).events config).1 ≠ 0 then
        parseOptions (getopt_long_run argv).events config
      else
        match remainingArgs argv with
        | [a, m] =>
          if a ∈ ACTIONS then
            (0, { (parseOptions (getopt_long_run argv).events config).2 with
                    action := a, message := m })
          else (ARG_ERROR, (parseOptions (getopt_long_run argv).events config).2)
        | _ => (ARG_ERROR, (parseOptions (getopt_long_run argv).events config).2) := by
  unfold tcp_client_parse_arguments
  by_cases hh : helpRequested argv = true
  · simp [hh]
  by_cases hp : (parseOptions (getopt_long_run argv).events config).1 ≠ 0
  · simp [hh, hp]
  simp only [hh, hp, if_false, Bool.false_eq_true]
  by_cases hl : (remainingArgs argv).length ≠ 2
  · rw [if_pos ((remainingArgs_length argv).2 hl)]
    split
    · simp_all
    · rfl
  · rw [if_neg (fun h => hl ((remainingArgs_length argv).1 h))]
    cases argv with
    | nil => simp [remainingArgs, getopt_long_run] at hl
    | cons prog rest =>
      have h0 := getD_optind prog rest 0
      have h1 := getD_optind prog rest 1
      rw [Nat.add_zero] at h0
      rw [h0, h1]
      match hr : remainingArgs (prog :: rest), hl with
      | [a, m], _ =>
        by_cases ha : a ∈ ACTIONS
        · have : unrecognizedAction a = false := by
            rw [← Bool.not_eq_true, unrecognizedAction_iff]; simpa using ha
          simp [this, ha]
        · have : unrecognizedAction a = true := (unrecognizedAction_iff a).2 ha
          simp [this, ha]
      | [], h => simp at h
      | [_], h => simp at h
      | _ :: _ :: _ :: _, h => simp at h

theorem parseOptions_ok_iff (es : List GetoptEvent) (config : Config)
    (hport : ∀ e ∈ es, e.opt = 'p' → digitsValue 0 e.optarg < 2 ^ 31) :
    (parseOptions es config).1 = 0 ↔ ∀ e ∈ es, optionValid e := by
  induction es generalizing config with
  | nil => simp [parseOptions]
  | cons e es ih =>
    have hrest : ∀ e2 ∈ es, e2.opt = 'p' → digitsValue 0 e2.optarg < 2 ^ 31 :=
      fun e2 h2 => hport e2 (List.mem_cons_of_mem _ h2)
    rw [List.forall_mem_cons]
    unfold parseOptions
    by_cases hv : e.opt = 'v'
    · rw [if_pos hv, ih _ hrest]
      exact ⟨fun h => ⟨Or.inl hv, h⟩, fun h => h.2⟩
    rw [if_neg hv]
    by_cases hh : e.opt = 'h'
    · rw [if_pos hh, ih _ hrest]
      exact ⟨fun h => ⟨Or.inr (Or.inl hh), h⟩, fun h => h.2⟩
    rw [if_neg hh]
    by_cases hp : e.opt = 'p'
    · rw [if_pos hp]
      by_cases hd : portAllDigits e.optarg = true
      · have hd2 : e.optarg.all isdigit = true := hd
        have hat := atoi_of_digits e.optarg hd2 (hport e (List.mem_cons_self _ _) hp)
        by_cases hr : atoi e.optarg > MAX_PORT_NUMBER
        · simp only [hd, hr, Bool.not_true, Bool.false_eq_true, if_false, if_true]
          constructor
          · intro h; exact absurd h (by simp [ARG_ERROR])
          · rintro ⟨h | h | ⟨_, _, h⟩, _⟩
            · exact absurd h hv
            · exact absurd h hh
            · rw [hat] at hr; unfold MAX_PORT_NUMBER at hr
              have : (65535 : Int) < (digitsValue 0 e.optarg : Int) := hr
              omega
        · simp only [hd, hr, Bool.not_true, Bool.false_eq_true, if_false]
          rw [ih _ hrest]
          refine ⟨fun h => ⟨Or.inr (Or.inr ⟨hp, hd2, ?_⟩), h⟩, fun h => h.2⟩
          rw [hat] at hr; unfold MAX_PORT_NUMBER at hr
          have : ¬ (65535 : Int) < (digitsValue 0 e.optarg : Int) := hr
          omega
      · have hd3 : portAllDigits e.optarg = false := by simpa using hd
        simp only [hd3, Bool.not_false, if_true]
        constructor
        · intro h; exact absurd h (by simp [ARG_ERROR])
        · rintro ⟨h | h | ⟨_, h, _⟩, _⟩
          · exact absurd h hv
          · exact absurd h hh
          · exact absurd (show portAllDigits e.optarg = true from h) hd
    · rw [if_neg hp]
      have : (if e.opt = '?' then (ARG_ERROR, config) else (ARG_ERROR, config)) =
          (ARG_ERROR, config) := by split_ifs <;> rfl
      rw [this]
      constructor
      · intro h; exact absurd h (by simp [ARG_ERROR])
      · rintro ⟨h | h | ⟨h, _, _⟩, _⟩
        · exact absurd h hv
        · exact absurd h hh
        · exact absurd h hp

/-- Apart from ports beyond the range of `int`, `tcp_client_parse_arguments`
returns success exactly on the arguments the specification accepts. -/
theorem parse_ok_iff (argv : List CString) (config : Config) (hport : portsFitInt argv) :
    (tcp_client_parse_arguments argv config).1 = 0 ↔ specArgsValid argv := by
  have hopt := parseOptions_ok_iff (getopt_long_run argv).events config hport
  rw [parse_eq]
  unfold specArgsValid
  by_cases h1 : helpRequested argv = true
  · rw [if_pos h1]
    have := (helpRequested_iff argv).1 h1
    constructor
    · intro h; exact absurd h (by simp [ARG_ERROR])
    · intro h; exact absurd this h.1
  rw [if_neg h1]
  have hnh : lit "--help" ∉ argv := fun h => h1 ((helpRequested_iff argv).2 h)
  by_cases h2 : (parseOptions (getopt_long_run argv).events config).1 ≠ 0
  · rw [if_pos h2]
    constructor
    · intro h; exact absurd h h2
    · intro h; exact absurd (hopt.2 h.2.1) h2
  rw [if_neg h2]
  have hev := hopt.1 (not_not.1 h2)
  match hr : remainingArgs argv with
  | [a, m] =>
    by_cases h3 : a ∈ ACTIONS
    · simp only [h3, if_true]
      exact ⟨fun _ => ⟨hnh, hev, rfl, a, h3, rfl⟩, fun _ => trivial⟩
    · simp only [h3, if_false]
      constructor
      · intro h; exact absurd h (by simp [ARG_ERROR])
      · rintro ⟨_, _, _, b, hb, hhead⟩
        simp only [List.head?_cons, Option.some.injEq] at hhead
        subst hhead
        exact absurd hb h3
  | [] =>
    constructor
    · intro h; exact absurd h (by simp [ARG_ERROR])
    · intro h; exact absurd h.2.2.1 (by simp)
  | [_] =>
    constructor
    · intro h; exact absurd h (by simp [ARG_ERROR])
    · intro h; exact absurd h.2.2.1 (by simp)
  | _ :: _ :: _ :: _ =>
    constructor
    · intro h; exact absurd h (by simp [ARG_ERROR])
    · intro h; exact absurd h.2.2.1 (by simp)

/-- Without `--help`, a `-p`/`--port` option whose value has a byte that is no
digit, or digits denoting a number from 65536 to 2147483647, makes
`tcp_client_parse_arguments` return failure. -/
theorem bad_port_rejected (argv : List CString) (config : Config) (e : GetoptEvent)
    (he : e ∈ (getopt_long_run argv).events) (hp : e.opt = 'p') (hbad : BadPort e.optarg) :
    (tcp_client_parse_arguments argv config).1 = ARG_ERROR := by
  rw [parse_eq]
  have h := parseOptions_bad_port _ config e he hp hbad
  split_ifs with h1 h2
  · rfl
  · exact h
  · rw [h] at h2; exact absurd h2 (by simp [ARG_ERROR])

/-! ## Lemmas on the socket functions and `main` -/

theorem requestText_length (config : Config) :
    (requestText config).length =
      config.action.length + 1 +
        ((fmt_d (toInt32 (config.message.length : Int))).length + 1 + config.message.length) := by
  unfold requestText
  rw [List.length_append, List.length_cons, List.length_append, List.length_cons]
  omega

theorem specFrame_length_gt (action message : CString) :
    message.length < (specFrame action message).length := by
  unfold specFrame
  rw [List.length_append, List.length_cons, List.length_append, List.length_cons]
  omega

theorem specFrame_ne_NUL (action message : CString) (hA : ∀ c ∈ action, c ≠ NUL)
    (hM : ∀ c ∈ message, c ≠ NUL) : ∀ c ∈ specFrame action message, c ≠ NUL := by
  intro c hc
  unfold specFrame at hc
  rcases List.mem_append.1 hc with h | h
  · exact hA c h
  rcases List.mem_cons.1 h with rfl | h
  · decide
  rcases List.mem_append.1 h with h | h
  · exact toDigits_ne_NUL _ c h
  rcases List.mem_cons.1 h with rfl | h
  · decide
  · exact hM c h

/-- Within the capacity of `request`, the bytes handed to `send` are the frame
of the specification and the length is their number. -/
theorem send_request_frame (hdr : Header) (sys : Sys) (sockfd : Int) (config : Config)
    (hA : ∀ c ∈ config.action, c ≠ NUL) (hM : ∀ c ∈ config.message, c ≠ NUL)
    (hfit : (specFrame config.action config.message).length < hdr.TCP_CLIENT_MAX_RECEIVE_SIZE)
    (hcap : hdr.TCP_CLIENT_MAX_RECEIVE_SIZE ≤ 2 ^ 31) :
    ∃ ret, tcp_client_send_request hdr sys sockfd config =
      some ⟨ret, specFrame config.action config.message,
        ((specFrame config.action config.message).length : Int)⟩ := by
  have hlen := specFrame_length_gt config.action config.message
  have hm : toInt32 (config.message.length : Int) = (config.message.length : Int) :=
    toInt32_of_nonneg_lt _ (by omega) (by
      have h2 : config.message.length < 2 ^ 31 := by omega
      exact_mod_cast h2)
  have htext : requestText config = specFrame config.action config.message := by
    unfold requestText specFrame
    rw [hm, fmt_d_natCast]
  have hs : toInt32 ((specFrame config.action config.message).length : Int) =
      ((specFrame config.action config.message).length : Int) :=
    toInt32_of_nonneg_lt _ (by omega) (by
      have h2 : (specFrame config.action config.message).length < 2 ^ 31 := by omega
      exact_mod_cast h2)
  unfold tcp_client_send_request sprintf
  rw [htext, stackArray_length, if_pos hfit]
  simp only []
  rw [strlen_append_NUL _ _ (specFrame_ne_NUL _ _ hA hM), hs, Int.toNat_ofNat,
    List.take_left]
  split_ifs
  · exact ⟨1, rfl⟩
  · exact ⟨0, rfl⟩

theorem main_of_parse_failure (hdr : Header) (sys : Sys) (argv : List CString)
    (h : (tcp_client_parse_arguments argv (config_values hdr)).1 ≠ 0) :
    main hdr sys argv = some ⟨EXIT_FAILURE, some [], []⟩ := by
  unfold main
  rw [if_pos h]

/-- The run of `main` is undefined exactly when it reaches
`tcp_client_send_request` and `sprintf` overflows `request` there. -/
theorem main_undefined_iff (hdr : Header) (sys : Sys) (argv : List CString) :
    main hdr sys argv = none ↔
      (tcp_client_parse_arguments argv (config_values hdr)).1 = 0 ∧
      mainSockfd hdr sys argv ≠ -1 ∧
      tcp_client_send_request hdr sys (mainSockfd hdr sys argv) (mainConfig hdr argv) = none := by
  unfold main
  by_cases h1 : (tcp_client_parse_arguments argv (config_values hdr)).1 = 0
  · by_cases h2 : mainSockfd hdr sys argv = -1
    · simp [h1, h2]
    · cases h3 : tcp_client_send_request hdr sys (mainSockfd hdr sys argv) (mainConfig hdr argv) with
      | none => simp [h1, h2, h3]
      | some s =>
        simp only [h1, h2, h3, ne_eq, not_true_eq_false, if_false, not_false_eq_true, true_and]
        split_ifs <;> simp
  · simp [h1]

theorem main_of_stagesSucceed (hdr : Header) (sys : Sys) (argv : List CString)
    (hok : stagesSucceed hdr sys argv) :
    (main hdr sys argv).map Outcome.stdout = some (printf_s_nl (mainReceive hdr sys argv).buf) := by
  obtain ⟨h1, h2, h3, h4, h5⟩ := hok
  unfold main
  cases hs : tcp_client_send_request hdr sys (mainSockfd hdr sys argv) (mainConfig hdr argv) with
  | none => rw [hs] at h3; simp at h3
  | some s =>
    rw [hs] at h3
    simp only [Option.map_some', Option.some.injEq] at h3
    simp [h1, h2, hs, h3, h4, h5]

/-- When the cell of `buf` behind the response holds a NUL and the response has
none, a successful run prints the response and a line feed. -/
theorem main_prints_response (hdr : Header) (sys : Sys) (argv : List CString) (n : Nat)
    (hok : stagesSucceed hdr sys argv)
    (hn : (sys.recv (mainSockfd hdr sys argv) hdr.TCP_CLIENT_MAX_RECEIVE_SIZE).1 = (n : Int))
    (hlen : (sys.recv (mainSockfd hdr sys argv) hdr.TCP_CLIENT_MAX_RECEIVE_SIZE).2.length = n)
    (hdata : ∀ c ∈ (sys.recv (mainSockfd hdr sys argv) hdr.TCP_CLIENT_MAX_RECEIVE_SIZE).2, c ≠ NUL)
    (hlt : n < hdr.TCP_CLIENT_MAX_RECEIVE_SIZE) (hz : sys.buf0 n = NUL) :
    (main hdr sys argv).map Outcome.stdout =
      some (some ((sys.recv (mainSockfd hdr sys argv) hdr.TCP_CLIENT_MAX_RECEIVE_SIZE).2 ++ [LF])) := by
  rw [main_of_stagesSucceed hdr sys argv hok]
  have h4 := hok.2.2.2.1
  unfold mainReceive tcp_client_receive_response at h4 ⊢
  rw [hn] at h4 ⊢
  by_cases hpos : (n : Int) ≤ 0
  · rw [if_pos hpos] at h4; exact absurd h4 (show (1 : Int) ≠ 0 by decide)
  · rw [if_neg hpos]
    simp only [Int.toNat_ofNat]
    rw [← hlen, List.take_length, hlen, stackArray_drop _ _ _ hlt, hz,
      printf_s_nl_append_NUL _ _ hdata]

/-- The exit status of `main` in terms of the values its callees return. -/
theorem main_status_iff_stages (hdr : Header) (sys : Sys) (argv : List CString) :
    ((main hdr sys argv).map Outcome.status = some EXIT_SUCCESS ↔ stagesSucceed hdr sys argv) ∧
      ((main hdr sys argv).map Outcome.status = some EXIT_FAILURE ↔
        ¬ stagesSucceed hdr sys argv ∧ main hdr sys argv ≠ none) ∧
      EXIT_SUCCESS = 0 ∧ EXIT_FAILURE ≠ 0 := by
  refine ⟨?_, ?_, rfl, by decide⟩
  · unfold main stagesSucceed
    by_cases h1 : (tcp_client_parse_arguments argv (config_values hdr)).1 = 0
    · by_cases h2 : mainSockfd hdr sys argv = -1
      · simp [h1, h2, EXIT_FAILURE, EXIT_SUCCESS]
      · cases h3 : tcp_client_send_request hdr sys (mainSockfd hdr sys argv)
            (mainConfig hdr argv) with
        | none => simp [h1, h2, h3]
        | some s =>
          by_cases h4 : s.ret = 0
          · by_cases h5 : (mainReceive hdr sys argv).ret = 0
            · by_cases h6 : (tcp_client_close sys (mainSockfd hdr sys argv)).1 = 0
              · simp [h1, h2, h3, h4, h5, h6, EXIT_FAILURE, EXIT_SUCCESS]
              · simp [h1, h2, h3, h4, h5, h6, EXIT_FAILURE, EXIT_SUCCESS]
            · simp [h1, h2, h3, h4, h5, EXIT_FAILURE, EXIT_SUCCESS]
          · simp [h1, h2, h3, h4, EXIT_FAILURE, EXIT_SUCCESS]
    · simp [h1, EXIT_FAILURE, EXIT_SUCCESS]
  · rw [ne_eq, main_undefined_iff]
    unfold main stagesSucceed
    by_cases h1 : (tcp_client_parse_arguments argv (config_values hdr)).1 = 0
    · by_cases h2 : mainSockfd hdr sys argv = -1
      · simp [h1, h2, EXIT_FAILURE, EXIT_SUCCESS]
      · cases h3 : tcp_client_send_request hdr sys (mainSockfd hdr sys argv)
            (mainConfig hdr argv) with
        | none => simp [h1, h2, h3]
        | some s =>
          by_cases h4 : s.ret = 0
          · by_cases h5 : (mainReceive hdr sys argv).ret = 0
            · by_cases h6 : (tcp_client_close sys (mainSockfd hdr sys argv)).1 = 0
              · simp [h1, h2, h3, h4, h5, h6, EXIT_FAILURE, EXIT_SUCCESS]
              · simp [h1, h2, h3, h4, h5, h6, EXIT_FAILURE, EXIT_SUCCESS]
            · simp [h1, h2, h3, h4, h5, EXIT_FAILURE, EXIT_SUCCESS]
          · simp [h1, h2, h3, h4, EXIT_FAILURE, EXIT_SUCCESS]
    · simp [h1, EXIT_FAILURE, EXIT_SUCCESS]

/-- Standard output of a run that ends with a non-zero status, in terms of the
values the callees of `main` return. -/
theorem failed_run_stdout_stages (hdr : Header) (sys : Sys)
    (argv : List CString) (o : Outcome)
    (hrun : main hdr sys argv = some o) (hfail : o.status ≠ 0) :
    o.stdout = some [] ∨
      ((tcp_client_parse_arguments argv (config_values hdr)).1 = 0 ∧
        mainSockfd hdr sys argv ≠ -1 ∧
        (tcp_client_send_request hdr sys (mainSockfd hdr sys argv) (mainConfig hdr argv)).map
          SendResult.ret = some 0 ∧
        (mainReceive hdr sys argv).ret = 0 ∧
        (tcp_client_close sys (mainSockfd hdr sys argv)).1 ≠ 0 ∧
        o.stdout = printf_s_nl (mainReceive hdr sys argv).buf) := by
  unfold main at hrun
  by_cases h1 : (tcp_client_parse_arguments argv (config_values hdr)).1 = 0
  · by_cases h2 : mainSockfd hdr sys argv = -1
    · simp [h1, h2] at hrun; subst hrun; left; rfl
    · cases h3 : tcp_client_send_request hdr sys (mainSockfd hdr sys argv)
          (mainConfig hdr argv) with
      | none => simp [h1, h2, h3] at hrun
      | some s =>
        by_cases h4 : s.ret = 0
        · by_cases h5 : (mainReceive hdr sys argv).ret = 0
          · by_cases h6 : (tcp_client_close sys (mainSockfd hdr sys argv)).1 = 0
            · simp [h1, h2, h3, h4, h5, h6] at hrun
              subst hrun
              exact absurd rfl hfail
            · simp [h1, h2, h3, h4, h5, h6] at hrun
              subst hrun
              right
              exact ⟨h1, h2, by simp [h4], h5, h6, rfl⟩
          · simp [h1, h2, h3, h4, h5] at hrun; subst hrun; left; rfl
        · simp [h1, h2, h3, h4] at hrun; subst hrun; left; rfl
  · simp [h1] at hrun; subst hrun; left; rfl

theorem connect_ok_iff (hdr : Header) (sys : Sys) (config : Config)
    (hbad : hdr.TCP_CLIENT_BAD_SOCKET = -1) :
    ((tcp_client_connect hdr sys config).1 ≠ -1 ↔ connectSucceeds sys config) ∧
      (connectSucceeds sys config → (tcp_client_connect hdr sys config).1 = sys.socket) := by
  unfold tcp_client_connect connectSucceeds
  by_cases h1 : sys.getaddrinfo config.host config.port = 0
  · by_cases h2 : sys.socket = -1
    · simp [h1, h2, hbad]
    · by_cases h3 : sys.connect sys.socket = -1
      · simp [h1, h2, h3, hbad]
      · simp [h1, h2, h3]
  · simp [h1]

theorem send_request_ret (hdr : Header) (sys : Sys) (sockfd : Int) (config : Config)
    (s : SendResult) (hs : tcp_client_send_request hdr sys sockfd config = some s) :
    s.ret = 0 ↔ sys.send sockfd s.data s.len ≠ -1 := by
  unfold tcp_client_send_request at hs
  split at hs
  · exact absurd hs (by simp)
  · rename_i request _
    by_cases h : sys.send sockfd (List.take (toInt32 ↑(strlen request)).toNat request)
        (toInt32 ↑(strlen request)) = -1
    · simp only [h, if_true, Option.some.injEq] at hs
      subst hs
      simp [h]
    · simp only [h, if_false, Option.some.injEq] at hs
      subst hs
      simp [h]

theorem send_ok_iff (hdr : Header) (sys : Sys) (config : Config) :
    (tcp_client_send_request hdr sys sys.socket config).map SendResult.ret = some 0 ↔
      sendReturn hdr sys config ≠ none ∧ sendReturn hdr sys config ≠ some (-1) := by
  unfold sendReturn
  cases hs : tcp_client_send_request hdr sys sys.socket config with
  | none => simp
  | some s =>
    have := send_request_ret hdr sys sys.socket config s hs
    simp only [Option.map_some', Option.some.injEq, ne_eq, not_false_eq_true, true_and,
      reduceCtorEq]
    exact this

theorem receive_ok_iff (sys : Sys) (sockfd : Int) (buf : Buffer) (buf_size : Int) :
    (tcp_client_receive_response sys sockfd buf buf_size).ret = 0 ↔
      0 < (sys.recv sockfd buf_size).1 := by
  unfold tcp_client_receive_response
  by_cases h : (sys.recv sockfd buf_size).1 ≤ 0
  · rw [if_pos h]
    exact ⟨fun h1 => absurd h1 (show (1 : Int) ≠ 0 by decide), fun h1 => by omega⟩
  · rw [if_neg h]
    exact ⟨fun _ => by omega, fun _ => rfl⟩

theorem receive_buf (hdr : Header) (sys : Sys)
    (h : 0 < (sys.recv sys.socket hdr.TCP_CLIENT_MAX_RECEIVE_SIZE).1) :
    (tcp_client_receive_response sys sys.socket
        (stackArray hdr.TCP_CLIENT_MAX_RECEIVE_SIZE sys.buf0)
        hdr.TCP_CLIENT_MAX_RECEIVE_SIZE).buf = bufAfterRecv hdr sys := by
  unfold tcp_client_receive_response bufAfterRecv
  rw [if_neg (by omega)]

theorem close_ok_iff (sys : Sys) (sockfd : Int) :
    (tcp_client_close sys sockfd).1 = 0 ↔ sys.close sockfd = 0 := by
  unfold tcp_client_close
  by_cases h : sys.close sockfd = 0
  · simp [h]
  · simp [h]

theorem printf_s_nl_ne_empty (buf : Buffer) : printf_s_nl buf ≠ some [] := by
  unfold printf_s_nl
  split_ifs
  · simp
  · simp

/-- With `TCP_CLIENT_BAD_SOCKET` equal to -1, the tests `main` makes on the
values its callees return are tests on what the system calls returned. -/
theorem stages_iff_calls (hdr : Header) (sys : Sys) (argv : List CString)
    (hbad : hdr.TCP_CLIENT_BAD_SOCKET = -1) :
    (stagesSucceed hdr sys argv ↔
        (tcp_client_parse_arguments argv (config_values hdr)).1 = 0 ∧
        exchangeSucceeds hdr sys (mainConfig hdr argv) ∧ sys.close sys.socket = 0) ∧
      (mainSockfd hdr sys argv ≠ -1 ↔ connectSucceeds sys (mainConfig hdr argv)) ∧
      (connectSucceeds sys (mainConfig hdr argv) → mainSockfd hdr sys argv = sys.socket) := by
  have hc := connect_ok_iff hdr sys (mainConfig hdr argv) hbad
  refine ⟨?_, hc.1, hc.2⟩
  unfold stagesSucceed exchangeSucceeds
  by_cases hcs : connectSucceeds sys (mainConfig hdr argv)
  · have hfd : mainSockfd hdr sys argv = sys.socket := hc.2 hcs
    have hne : mainSockfd hdr sys argv ≠ -1 := hc.1.2 hcs
    unfold mainReceive
    rw [hfd, send_ok_iff, receive_ok_iff, close_ok_iff]
    have hs := hcs.2.1
    constructor
    · rintro ⟨h1, _, ⟨h3, h4⟩, h5, h6⟩
      exact ⟨h1, ⟨hcs, h3, h4, h5⟩, h6⟩
    · rintro ⟨h1, ⟨_, h3, h4, h5⟩, h6⟩
      exact ⟨h1, hs, ⟨h3, h4⟩, h5, h6⟩
  · have hne : ¬ mainSockfd hdr sys argv ≠ -1 := fun h => hcs (hc.1.1 h)
    constructor
    · rintro ⟨_, h2, _⟩; exact absurd h2 hne
    · rintro ⟨_, ⟨h2, _⟩, _⟩; exact absurd h2 hcs

theorem main_of_close_failure (hdr : Header) (sys : Sys) (argv : List CString)
    (h1 : (tcp_client_parse_arguments argv (config_values hdr)).1 = 0)
    (h2 : mainSockfd hdr sys argv ≠ -1)
    (h3 : (tcp_client_send_request hdr sys (mainSockfd hdr sys argv) (mainConfig hdr argv)).map
      SendResult.ret = some 0)
    (h4 : (mainReceive hdr sys argv).ret = 0)
    (h5 : (tcp_client_close sys (mainSockfd hdr sys argv)).1 ≠ 0) :
    (main hdr sys argv).map Outcome.status = some EXIT_FAILURE ∧
      (main hdr sys argv).map Outcome.stdout =
        some (printf_s_nl (mainReceive hdr sys argv).buf) := by
  unfold main
  cases hs : tcp_client_send_request hdr sys (mainSockfd hdr sys argv) (mainConfig hdr argv) with
  | none => rw [hs] at h3; simp at h3
  | some s =>
    rw [hs] at h3
    simp only [Option.map_some', Option.some.injEq] at h3
    simp [h1, h2, hs, h3, h4, h5]

/-! ## The claims -/

/-- Claim C1, at a failing input: whatever the capacity
`TCP_CLIENT_MAX_RECEIVE_SIZE` of `request` and whatever the action, for a
message of that many bytes `sprintf` writes past the end of `request`, so the
behaviour of `tcp_client_send_request` is undefined and no frame is handed to
`send`.  (Within the capacity the frame is the one claimed:
`send_request_frame`.) -/
theorem send_request_overflows_request (hdr : Header) (sys : Sys) (sockfd : Int)
    (port host action : CString) :
    tcp_client_send_request hdr sys sockfd
      ⟨port, host, action, List.replicate hdr.TCP_CLIENT_MAX_RECEIVE_SIZE 'a'⟩ = none := by
  have h : ¬ (requestText ⟨port, host, action,
      List.replicate hdr.TCP_CLIENT_MAX_RECEIVE_SIZE 'a'⟩).length
        < (stackArray hdr.TCP_CLIENT_MAX_RECEIVE_SIZE sys.request0).length := by
    rw [stackArray_length, requestText_length, List.length_replicate]
    omega
  simp only [tcp_client_send_request, sprintf, if_neg h]

/-- Claim C2, at a failing input: for `tcp_client -p 4294967296 reverse abc`
(no `--help`, an all-digit port denoting 2^32 > 65535) `atoi` yields 0, the
range check passes and `tcp_client_parse_arguments` returns 0 with the port
stored in the configuration.  (Ports with a non-digit byte or a value from
65536 to 2147483647 are rejected: `bad_port_rejected`.) -/
theorem parse_arguments_accepts_port_4294967296 (config : Config) :
    tcp_client_parse_arguments
        [lit "tcp_client", lit "-p", lit "4294967296", lit "reverse", lit "abc"] config =
      (0, { config with port := lit "4294967296", action := lit "reverse",
                        message := lit "abc" }) := by
  rfl

/-- Claim C3: when the first argument that remains after the options is not
byte-for-byte one of the five keywords, `tcp_client_parse_arguments` returns
failure and `main` exits with `EXIT_FAILURE` having made no system call (so
`tcp_client_connect` was not called) and written nothing. -/
theorem unrecognized_action_fails_without_network (hdr : Header) (sys : Sys)
    (argv : List CString) (config : Config) (a : CString)
    (hfirst : (remainingArgs argv).head? = some a) (ha : a ∉ ACTIONS) :
    (tcp_client_parse_arguments argv config).1 = ARG_ERROR ∧
      main hdr sys argv = some ⟨EXIT_FAILURE, some [], []⟩ := by
  have hp : ∀ c, (tcp_client_parse_arguments argv c).1 = ARG_ERROR := by
    intro c
    rw [parse_eq]
    split_ifs with h1 h2
    · rfl
    · rcases parseOptions_ret (getopt_long_run argv).events c with h | h
      · exact absurd h h2
      · exact h
    · split
      · rename_i a2 m heq
        rw [heq] at hfirst
        simp only [List.head?_cons, Option.some.injEq] at hfirst
        subst hfirst
        rw [if_neg ha]
      · rfl
  refine ⟨hp config, main_of_parse_failure hdr sys argv ?_⟩
  rw [hp]; simp [ARG_ERROR]

/-- Witness of C3: `tcp_client Reverse abc` (a keyword in another case). -/
theorem unrecognized_action_fails_without_network_witness :
    (remainingArgs [lit "tcp_client", lit "Reverse", lit "abc"]).head? = some (lit "Reverse") ∧
      lit "Reverse" ∉ ACTIONS ∧
      (tcp_client_parse_arguments [lit "tcp_client", lit "Reverse", lit "abc"]
        (config_values exampleHeader)).1 = ARG_ERROR ∧
      main exampleHeader exampleSys [lit "tcp_client", lit "Reverse", lit "abc"] =
        some ⟨EXIT_FAILURE, some [], []⟩ :=
  ⟨by rfl, by decide,
    unrecognized_action_fails_without_network exampleHeader exampleSys
      [lit "tcp_client", lit "Reverse", lit "abc"] (config_values exampleHeader)
      (lit "Reverse") (by rfl) (by decide)⟩

/-- Claim C4: when some argument, at any position, equals `--help`,
`tcp_client_parse_arguments` returns failure whatever the other arguments
are, and `main` exits with the non-zero status `EXIT_FAILURE` having made no
system call. -/
theorem help_anywhere_fails_without_network (hdr : Header) (sys : Sys) (argv : List CString)
    (config : Config) (h : lit "--help" ∈ argv) :
    (tcp_client_parse_arguments argv config).1 = ARG_ERROR ∧
      main hdr sys argv = some ⟨EXIT_FAILURE, some [], []⟩ ∧ EXIT_FAILURE ≠ 0 := by
  have hp : ∀ c, tcp_client_parse_arguments argv c = (ARG_ERROR, c) := by
    intro c
    rw [parse_eq, if_pos ((helpRequested_iff argv).2 h)]
  refine ⟨by rw [hp], ?_, by decide⟩
  apply main_of_parse_failure
  rw [hp]; simp [ARG_ERROR]

/-- Witness of C4: `tcp_client -p 80 reverse abc --help`, valid but for the
trailing `--help`. -/
theorem help_anywhere_fails_without_network_witness :
    (tcp_client_parse_arguments
        [lit "tcp_client", lit "-p", lit "80", lit "reverse", lit "abc", lit "--help"]
        (config_values exampleHeader)).1 = ARG_ERROR ∧
      main exampleHeader exampleSys
          [lit "tcp_client", lit "-p", lit "80", lit "reverse", lit "abc", lit "--help"] =
        some ⟨EXIT_FAILURE, some [], []⟩ ∧ EXIT_FAILURE ≠ 0 :=
  help_anywhere_fails_without_network exampleHeader exampleSys
    [lit "tcp_client", lit "-p", lit "80", lit "reverse", lit "abc", lit "--help"]
    (config_values exampleHeader) (by decide)

set_option maxRecDepth 1000000 in
/-- Counterexample to C5: with `send` returning 0 for the frame
`reverse 3 abc`, `tcp_client_send_request` returns 0 (success), not failure. -/
theorem send_result_zero_reported_as_success :
    sendZeroSys.send 3 (lit "reverse 3 abc") 13 = 0 ∧
      tcp_client_send_request exampleHeader sendZeroSys 3
          ⟨lit "8080", lit "localhost", lit "reverse", lit "abc"⟩ =
        some ⟨0, lit "reverse 3 abc", 13⟩ :=
  ⟨by rfl, by rfl⟩

/-- Claim C5 as amended: whenever the frame fits `request`,
`tcp_client_send_request` returns failure (1) exactly when `send` returns
-1, and success (0) for every other result of `send`, zero included. -/
theorem send_request_fails_iff_send_minus_one (hdr : Header) (sys : Sys) (sockfd : Int)
    (config : Config) (s : SendResult)
    (hs : tcp_client_send_request hdr sys sockfd config = some s) :
    (s.ret = 1 ↔ sys.send sockfd s.data s.len = -1) ∧
      (s.ret = 0 ↔ sys.send sockfd s.data s.len ≠ -1) := by
  unfold tcp_client_send_request at hs
  split at hs
  · exact absurd hs (by simp)
  · rename_i request _
    by_cases h : sys.send sockfd (List.take (toInt32 ↑(strlen request)).toNat request)
        (toInt32 ↑(strlen request)) = -1
    · simp only [h, if_true, Option.some.injEq] at hs
      subst hs
      simp [h]
    · simp only [h, if_false, Option.some.injEq] at hs
      subst hs
      simp [h]

set_option maxRecDepth 1000000 in
/-- Witness of C5 as amended: the frame `reverse 3 abc`, all 13 bytes sent. -/
theorem send_request_fails_iff_send_minus_one_witness :
    tcp_client_send_request exampleHeader exampleSys 3
        ⟨lit "8080", lit "localhost", lit "reverse", lit "abc"⟩ =
      some ⟨0, lit "reverse 3 abc", 13⟩ ∧
    (((0 : Int) = 1 ↔ exampleSys.send 3 (lit "reverse 3 abc") 13 = -1) ∧
      ((0 : Int) = 0 ↔ exampleSys.send 3 (lit "reverse 3 abc") 13 ≠ -1)) :=
  ⟨by rfl,
    send_request_fails_iff_send_minus_one exampleHeader exampleSys 3
      ⟨lit "8080", lit "localhost", lit "reverse", lit "abc"⟩
      ⟨0, lit "reverse 3 abc", 13⟩ (by rfl)⟩

/-- Claim C6: `tcp_client_receive_response` returns 1 exactly when the result
of `recv` is zero or negative and 0 exactly when it is positive (whatever
its size relative to the capacity), and it calls `recv` once, with the
caller's `buf_size` as the limit. -/
theorem receive_response_fails_iff_nonpositive (sys : Sys) (sockfd : Int) (buf : Buffer)
    (buf_size : Int) :
    ((tcp_client_receive_response sys sockfd buf buf_size).ret = 1 ↔
        (sys.recv sockfd buf_size).1 ≤ 0) ∧
      ((tcp_client_receive_response sys sockfd buf buf_size).ret = 0 ↔
        0 < (sys.recv sockfd buf_size).1) ∧
      (tcp_client_receive_response sys sockfd buf buf_size).calls =
        [Call.recv sockfd buf_size] := by
  unfold tcp_client_receive_response
  by_cases h : (sys.recv sockfd buf_size).1 ≤ 0
  · rw [if_pos h]
    refine ⟨⟨fun _ => h, fun _ => rfl⟩, ⟨fun h1 => ?_, fun h1 => ?_⟩, rfl⟩
    · exact absurd h1 (show (1 : Int) ≠ 0 by decide)
    · omega
  · rw [if_neg h]
    refine ⟨⟨fun h1 => ?_, fun h1 => absurd h1 h⟩, ⟨fun _ => by omega, fun _ => rfl⟩, rfl⟩
    exact absurd h1 (show (0 : Int) ≠ 1 by decide)

set_option maxRecDepth 1000000 in
/-- Counterexample to C7: in the run of `tcp_client reverse abc` where `send`
returns 0, which the specification counts as a failed send, `main` exits with
status 0. -/
theorem main_exits_zero_when_send_returns_zero :
    sendZeroSys.send 3 (lit "reverse 3 abc") 13 = 0 ∧
      main exampleHeader sendZeroSys reverseAbc =
        some ⟨EXIT_SUCCESS, some (lit "cba" ++ [LF]), reverseAbcCalls⟩ ∧
      EXIT_SUCCESS = 0 :=
  ⟨by rfl, by rfl, by rfl⟩

/-- Claim C7 as amended: with `TCP_CLIENT_BAD_SOCKET` equal to -1 and no port
option beyond the range of `int`, `main` exits with status 0 exactly when the
arguments are valid, `getaddrinfo` returns 0, `socket` and `connect` do not
return -1, the frame fits `request` and `send` does not return -1 (a result
of 0 included), `recv` returns a positive count and `close` returns 0.  The
run is undefined exactly when the arguments are valid, the connection is made
and the frame does not fit `request`.  Every other run exits with
`EXIT_FAILURE`, which is not zero (a failure of `close` after a successful
receive included). -/
theorem main_exit_status_by_calls (hdr : Header) (sys : Sys) (argv : List CString)
    (hbad : hdr.TCP_CLIENT_BAD_SOCKET = -1) (hport : portsFitInt argv) :
    ((main hdr sys argv).map Outcome.status = some EXIT_SUCCESS ↔
        specArgsValid argv ∧ exchangeSucceeds hdr sys (mainConfig hdr argv) ∧
          sys.close sys.socket = 0) ∧
      (main hdr sys argv = none ↔
        specArgsValid argv ∧ connectSucceeds sys (mainConfig hdr argv) ∧
          sendReturn hdr sys (mainConfig hdr argv) = none) ∧
      ((main hdr sys argv).map Outcome.status = some EXIT_FAILURE ↔
        ¬ (specArgsValid argv ∧ exchangeSucceeds hdr sys (mainConfig hdr argv) ∧
            sys.close sys.socket = 0) ∧
        ¬ (specArgsValid argv ∧ connectSucceeds sys (mainConfig hdr argv) ∧
            sendReturn hdr sys (mainConfig hdr argv) = none)) ∧
      EXIT_SUCCESS = 0 ∧ EXIT_FAILURE ≠ 0 := by
  have hst := main_status_iff_stages hdr sys argv
  have hun := main_undefined_iff hdr sys argv
  have hbr := stages_iff_calls hdr sys argv hbad
  have hpa := parse_ok_iff argv (config_values hdr) hport
  have hsucc : stagesSucceed hdr sys argv ↔
      specArgsValid argv ∧ exchangeSucceeds hdr sys (mainConfig hdr argv) ∧
        sys.close sys.socket = 0 := by
    rw [hbr.1, hpa]
  have hnone : main hdr sys argv = none ↔
      specArgsValid argv ∧ connectSucceeds sys (mainConfig hdr argv) ∧
        sendReturn hdr sys (mainConfig hdr argv) = none := by
    rw [hun, hpa, hbr.2.1]
    constructor
    · rintro ⟨h1, h2, h3⟩
      rw [hbr.2.2 h2] at h3
      exact ⟨h1, h2, by unfold sendReturn; rw [h3]; rfl⟩
    · rintro ⟨h1, h2, h3⟩
      refine ⟨h1, h2, ?_⟩
      rw [hbr.2.2 h2]
      unfold sendReturn at h3
      exact Option.map_eq_none'.1 h3
  refine ⟨hst.1.trans hsucc, hnone, ?_, rfl, by decide⟩
  rw [hst.2.1, hsucc, ne_eq, hnone]

set_option maxRecDepth 1000000 in
/-- Witness of C7 as amended: `tcp_client -p 80 reverse abc` exits with status
0 when every call succeeds and with `EXIT_FAILURE` when only `close` fails. -/
theorem main_exit_status_by_calls_witness :
    exampleHeader.TCP_CLIENT_BAD_SOCKET = -1 ∧ portsFitInt reverseAbcPort80 ∧
      (main exampleHeader exampleSys reverseAbcPort80).map Outcome.status =
        some EXIT_SUCCESS ∧
      (main exampleHeader closeFailSys reverseAbcPort80).map Outcome.status =
        some EXIT_FAILURE :=
  ⟨rfl, by decide,
    (main_exit_status_by_calls exampleHeader exampleSys reverseAbcPort80 rfl (by decide)).1.2
      (by decide),
    (main_exit_status_by_calls exampleHeader closeFailSys reverseAbcPort80 rfl
      (by decide)).2.2.1.2 ⟨by decide, by decide⟩⟩

set_option maxRecDepth 1000000 in
/-- Counterexample to C8: in the run of `tcp_client reverse abc` where only
`close` fails, `main` exits with `EXIT_FAILURE` after the response `cba` and
a line feed have been written to standard output. -/
theorem close_failure_exits_nonzero_after_printing :
    main exampleHeader closeFailSys reverseAbc =
        some ⟨EXIT_FAILURE, some (lit "cba" ++ [LF]), reverseAbcCalls⟩ ∧
      EXIT_FAILURE ≠ 0 ∧ some (lit "cba" ++ [LF]) ≠ some ([] : List Char) :=
  ⟨by rfl, by decide, by decide⟩

/-- Claim C8 as amended: with `TCP_CLIENT_BAD_SOCKET` equal to -1, a run of
`main` that ends with a non-zero exit status has written nothing to standard
output unless `tcp_client_parse_arguments` returned success, connect, send
and receive succeeded and `close` failed; and in every such run `main` exits
with `EXIT_FAILURE` after `printf` has written `buf` as a string, which is
never nothing. -/
theorem nonzero_exit_stdout (hdr : Header) (sys : Sys) (argv : List CString)
    (hbad : hdr.TCP_CLIENT_BAD_SOCKET = -1) :
    (∀ o, main hdr sys argv = some o → o.status ≠ 0 →
        o.stdout = some [] ∨
          ((tcp_client_parse_arguments argv (config_values hdr)).1 = 0 ∧
            exchangeSucceeds hdr sys (mainConfig hdr argv) ∧ sys.close sys.socket ≠ 0)) ∧
      ((tcp_client_parse_arguments argv (config_values hdr)).1 = 0 ∧
          exchangeSucceeds hdr sys (mainConfig hdr argv) ∧ sys.close sys.socket ≠ 0 →
        (main hdr sys argv).map Outcome.status = some EXIT_FAILURE ∧
          (main hdr sys argv).map Outcome.stdout = some (printf_s_nl (bufAfterRecv hdr sys)) ∧
          printf_s_nl (bufAfterRecv hdr sys) ≠ some []) := by
  have hbr := stages_iff_calls hdr sys argv hbad
  constructor
  · intro o hrun hfail
    rcases failed_run_stdout_stages hdr sys argv o hrun hfail with h | ⟨h1, h2, h3, h4, h5, _⟩
    · left; exact h
    · right
      have hcs := hbr.2.1.1 h2
      have hfd := hbr.2.2 hcs
      rw [hfd] at h3 h5
      unfold mainReceive at h4
      rw [hfd, receive_ok_iff] at h4
      have h3b := (send_ok_iff hdr sys (mainConfig hdr argv)).1 h3
      refine ⟨h1, ⟨hcs, h3b.1, h3b.2, h4⟩, ?_⟩
      intro hc
      exact h5 ((close_ok_iff sys sys.socket).2 hc)
  · rintro ⟨h1, ⟨hcs, h3a, h3b, h4⟩, h5⟩
    have hfd := hbr.2.2 hcs
    have h2 : mainSockfd hdr sys argv ≠ -1 := hbr.2.1.2 hcs
    have h3 : (tcp_client_send_request hdr sys (mainSockfd hdr sys argv)
        (mainConfig hdr argv)).map SendResult.ret = some 0 := by
      rw [hfd]; exact (send_ok_iff hdr sys (mainConfig hdr argv)).2 ⟨h3a, h3b⟩
    have h4b : (mainReceive hdr sys argv).ret = 0 := by
      unfold mainReceive; rw [hfd]; exact (receive_ok_iff _ _ _ _).2 h4
    have h5b : (tcp_client_close sys (mainSockfd hdr sys argv)).1 ≠ 0 := by
      rw [hfd]; intro hc; exact h5 ((close_ok_iff sys sys.socket).1 hc)
    have hm := main_of_close_failure hdr sys argv h1 h2 h3 h4b h5b
    have hbuf : (mainReceive hdr sys argv).buf = bufAfterRecv hdr sys := by
      unfold mainReceive; rw [hfd]; exact receive_buf hdr sys h4
    rw [hbuf] at hm
    exact ⟨hm.1, hm.2, printf_s_nl_ne_empty _⟩

set_option maxRecDepth 1000000 in
/-- Witness of C8 as amended: in the run of `tcp_client reverse abc` where only
`close` fails, `main` exits with `EXIT_FAILURE` after `printf` has written
`buf`; in the run where the peer closes at once (`recv` returns 0) nothing
has been written. -/
theorem nonzero_exit_stdout_witness :
    exampleHeader.TCP_CLIENT_BAD_SOCKET = -1 ∧
      ((main exampleHeader closeFailSys reverseAbc).map Outcome.status = some EXIT_FAILURE ∧
        (main exampleHeader closeFailSys reverseAbc).map Outcome.stdout =
          some (printf_s_nl (bufAfterRecv exampleHeader closeFailSys)) ∧
        printf_s_nl (bufAfterRecv exampleHeader closeFailSys) ≠ some []) ∧
      (some ([] : List Char) = some [] ∨
        ((tcp_client_parse_arguments reverseAbc (config_values exampleHeader)).1 = 0 ∧
          exchangeSucceeds exampleHeader recvZeroSys (mainConfig exampleHeader reverseAbc) ∧
          recvZeroSys.close recvZeroSys.socket ≠ 0)) :=
  ⟨rfl,
    (nonzero_exit_stdout exampleHeader closeFailSys reverseAbc rfl).2 (by decide),
    (nonzero_exit_stdout exampleHeader recvZeroSys reverseAbc rfl).1
      ⟨EXIT_FAILURE, some [],
        [Call.getaddrinfo (lit "localhost") (lit "8080"), Call.socket, Call.connect 3,
         Call.send 3 (lit "reverse 3 abc") 13, Call.recv 3 1024]⟩ (by rfl) (by decide)⟩

set_option maxRecDepth 1000000 in
/-- Claim C9, at two failing inputs, both successful runs of
`tcp_client reverse abc` with exit status 0.  With `?` left in the first
four cells of `buf`, the response `cba` is printed as `cba?` and a line
feed.  With a clean `buf` and the three response bytes `c`, NUL, `a`, only
`c` and a line feed are printed. -/
theorem main_prints_buf_as_string_not_response :
    main exampleHeader garbageSys reverseAbc =
        some ⟨EXIT_SUCCESS, some (lit "cba?" ++ [LF]), reverseAbcCalls⟩ ∧
      main exampleHeader nulResponseSys reverseAbc =
        some ⟨EXIT_SUCCESS, some (lit "c" ++ [LF]), reverseAbcCalls⟩ :=
  ⟨by rfl, by rfl⟩

/-- Claim C10: when `tcp_client_parse_arguments` returns success, exactly two
arguments remained after the options, `config.action` is the first and
`config.message` the second; with any other number of remaining arguments it
returns failure. -/
theorem parse_success_two_remaining (argv : List CString) (config : Config) :
    ((tcp_client_parse_arguments argv config).1 = 0 →
        remainingArgs argv =
          [(tcp_client_parse_arguments argv config).2.action,
           (tcp_client_parse_arguments argv config).2.message]) ∧
      ((remainingArgs argv).length ≠ 2 →
        (tcp_client_parse_arguments argv config).1 = ARG_ERROR) := by
  rw [parse_eq]
  constructor
  · intro h
    by_cases h1 : helpRequested argv = true
    · rw [if_pos h1] at h; simp [ARG_ERROR] at h
    rw [if_neg h1] at h ⊢
    by_cases h2 : (parseOptions (getopt_long_run argv).events config).1 ≠ 0
    · rw [if_pos h2] at h; exact absurd h h2
    rw [if_neg h2] at h ⊢
    match hr : remainingArgs argv with
    | [a, m] =>
      rw [hr] at h
      by_cases h3 : a ∈ ACTIONS
      · simp [h3]
      · simp [h3, ARG_ERROR] at h
    | [] => rw [hr] at h; simp [ARG_ERROR] at h
    | [_] => rw [hr] at h; simp [ARG_ERROR] at h
    | _ :: _ :: _ :: _ => rw [hr] at h; simp [ARG_ERROR] at h
  · intro hl
    split_ifs with h1 h2
    · rfl
    · rcases parseOptions_ret (getopt_long_run argv).events config with h | h
      · exact absurd h h2
      · exact h
    · split
      · rename_i a m heq
        rw [heq] at hl
        simp at hl
      · rfl

/-- Witness of C10: `tcp_client -v shuffle -p 80 hello` succeeds with the two
remaining arguments `shuffle` and `hello`; `tcp_client reverse a b`, with
three, fails. -/
theorem parse_success_two_remaining_witness :
    remainingArgs [lit "tcp_client", lit "-v", lit "shuffle", lit "-p", lit "80", lit "hello"] =
        [(tcp_client_parse_arguments
            [lit "tcp_client", lit "-v", lit "shuffle", lit "-p", lit "80", lit "hello"]
            (config_values exampleHeader)).2.action,
         (tcp_client_parse_arguments
            [lit "tcp_client", lit "-v", lit "shuffle", lit "-p", lit "80", lit "hello"]
            (config_values exampleHeader)).2.message] ∧
      (tcp_client_parse_arguments [lit "tcp_client", lit "reverse", lit "a", lit "b"]
        (config_values exampleHeader)).1 = ARG_ERROR :=
  ⟨(parse_success_two_remaining
      [lit "tcp_client", lit "-v", lit "shuffle", lit "-p", lit "80", lit "hello"]
      (config_values exampleHeader)).1 (by rfl),
   (parse_success_two_remaining [lit "tcp_client", lit "reverse", lit "a", lit "b"]
      (config_values exampleHeader)).2 (by decide)⟩

end TcpClient
